import Mathlib

/-!
# receiver: UDP read-and-dispatch front-end

A shallow embedding of `receiver.go` (package `receiver`): the startup routine
`Start` and the per-worker read loop `processingQueue`.

The Go code is effectful; the embedding makes the effects explicit.

* Everything a function does to the outside world is recorded, in program
  order, as a list of `Event`s: log lines, the bind attempt, goroutine spawns
  and callback invocations.
* What the outside world hands back is an input: the two `net` functions used
  by `Start` are fields of `Net`, and each return of
  `connection.ReadFromUDP(buf)` is a `ReadResult`.
* A slice expression that is out of range panics in Go; the embedding keeps the
  bounds check (`slicePrefix`) and a `panicked` control state.
-/

namespace Receiver

/-! ## Data model -/

/-- One `byte`. -/
abbrev Byte := Fin 256

/-- The constant `maxUDPSize` (receiver.go, line 29). -/
def maxUDPSize : Nat := 65536

/-- A Go `error` value, observed only through its `Error()` method. -/
structure GoError where
  msg : String
  deriving DecidableEq, Repr

/-- The method `err.Error()`. -/
def GoError.Error (e : GoError) : String := e.msg

/-- Severity of a line sent to the `logger` package. -/
inductive Level where
  | info
  | error
  deriving DecidableEq, Repr

/-- One line handed to the process-wide logging sink. -/
structure LogEntry where
  level : Level
  text : String
  deriving DecidableEq, Repr

/-- A parsed address, `net.IP`: its bytes. -/
abbrev IP := List Byte

/-- The struct `net.UDPAddr` with the two fields `Start` fills in. A nil `IP`
is `none`. -/
structure UDPAddr where
  Port : Int
  IP : Option IP
  deriving DecidableEq, Repr

/-- An open socket, `*net.UDPConn`, known by its descriptor. -/
structure UDPConn where
  fd : Nat
  deriving DecidableEq, Repr

/-- A value of `type RecvFunc func(data []byte)`. The package never looks inside
the function: it passes it on and calls it. The embedding therefore keeps the
identity of the function and records each call as an `Event.call`; the call is
taken to return and to leave the buffer of the worker as it found it. -/
structure RecvFunc where
  ident : Nat
  deriving DecidableEq, Repr

/-- The observable actions of the package, in the order the code performs
them. -/
inductive Event where
  /-- The calls `logger.Info(text)` and `logger.Error(text)`. -/
  | log (entry : LogEntry)
  /-- The call `net.ListenUDP("udp", &addr)`. -/
  | listen (addr : UDPAddr)
  /-- The statement `go processingQueue(conn, recvfunc)`. -/
  | spawn (conn : UDPConn) (recvfunc : RecvFunc)
  /-- The call `recvfunc(data)`. -/
  | call (recvfunc : RecvFunc) (data : List Byte)
  deriving DecidableEq, Repr

/-- The part of package `net` that `Start` calls. Both functions belong to the
Go standard library, so they are inputs of the model. -/
structure Net where
  /-- The function `net.ParseIP`: `none` is the nil result for a string that is
  not an IP address. -/
  ParseIP : String → Option IP
  /-- The function `net.ListenUDP("udp", ·)`. -/
  ListenUDP : UDPAddr → Except GoError UDPConn

/-- The function `strconv.Itoa`: decimal rendering of an `int`. -/
def Itoa (i : Int) : String :=
  if i < 0 then "-" ++ Nat.repr (-i).toNat else Nat.repr i.toNat

/-! ## Start (receiver.go, lines 36-59) -/

/-- How a call of `Start` ends. -/
inductive Exit where
  /-- The `return` of line 50, taken when the bind fails. -/
  | earlyReturn
  /-- The end of the function body, line 59, reached after the spawn loop. -/
  | endOfBody
  deriving DecidableEq, Repr

/-- What a call of `Start` did and how it ended. -/
structure StartResult where
  trace : List Event
  exit : Exit
  deriving DecidableEq, Repr

/-- The loop `for i := 0; i < queueSize; i++ { go processingQueue(ServerConn, recvfunc) }`
(lines 55-57), entered with the current value of `i` and the events so far. -/
def spawnLoop (ServerConn : UDPConn) (recvfunc : RecvFunc) (queueSize : Int)
    (i : Int) (trace : List Event) : List Event :=
  if i < queueSize then
    spawnLoop ServerConn recvfunc queueSize (i + 1) (trace ++ [Event.spawn ServerConn recvfunc])
  else
    trace
termination_by (queueSize - i).toNat
decreasing_by omega

/-- The text of the startup line (line 38). -/
def startupMessage (listenIP : String) (listenPort : Int) : String :=
  "Starting the receiver service listening for UDP on " ++ listenIP ++ ":" ++ Itoa listenPort

/-- The function `Start(listenIP, listenPort, queueSize, recvfunc)`. -/
def Start (net : Net) (listenIP : String) (listenPort queueSize : Int)
    (recvfunc : RecvFunc) : StartResult :=
  let t₀ : List Event := [Event.log ⟨Level.info, startupMessage listenIP listenPort⟩]
  let addr : UDPAddr := { Port := listenPort, IP := net.ParseIP listenIP }
  let t₁ := t₀ ++ [Event.listen addr]
  match net.ListenUDP addr with
  | Except.error err =>
      { trace := t₁ ++ [Event.log ⟨Level.error, err.Error⟩], exit := Exit.earlyReturn }
  | Except.ok ServerConn =>
      { trace := spawnLoop ServerConn recvfunc queueSize 0 t₁, exit := Exit.endOfBody }

/-! ## processingQueue (receiver.go, lines 65-85) -/

/-- One return of `connection.ReadFromUDP(buf)`: the count `n`, the error
(`none` is nil) and the bytes the call stored in `buf`, from index 0 on. The
source address, the second return value, is discarded by the code. -/
structure ReadResult where
  n : Int
  err : Option GoError
  data : List Byte
  deriving DecidableEq, Repr

/-- The buffer after a read stored `data` at its start: a slice keeps its
length, so bytes that do not fit are dropped and the rest of the buffer is
unchanged. -/
def store (buf data : List Byte) : List Byte :=
  data.take buf.length ++ buf.drop data.length

/-- The slice expression `buf[:n]`: `none` is the run-time panic for an index
out of range. -/
def slicePrefix (buf : List Byte) (n : Int) : Option (List Byte) :=
  if 0 ≤ n ∧ n ≤ (buf.length : Int) then some (buf.take n.toNat) else none

/-- The local variables `n`, `err`, `buf` of `processingQueue` (line 69). -/
structure Worker where
  n : Int
  err : Option GoError
  buf : List Byte
  deriving DecidableEq, Repr

/-- Where the control of a worker is between two iterations. The function has
no `return` and no `break`. -/
inductive Loc where
  /-- At line 75, waiting for `ReadFromUDP` to return. -/
  | awaiting
  /-- Stopped by a run-time panic. -/
  | panicked
  deriving DecidableEq, Repr

/-- The outcome of one pass through the loop body. -/
structure Step where
  loc : Loc
  vars : Worker
  events : List Event
  deriving DecidableEq, Repr

/-- The initial values of line 69: `n, err, buf := 0, error(nil), make([]byte, maxUDPSize)`. -/
def Worker.init : Worker :=
  { n := 0, err := none, buf := List.replicate maxUDPSize 0 }

/-- One pass through the body of the `for` loop (lines 75-81), for the read
result `r`. -/
def iteration (recvfunc : RecvFunc) (w : Worker) (r : ReadResult) : Step :=
  let w₁ : Worker := { n := r.n, err := r.err, buf := store w.buf r.data }
  match w₁.err with
  | some err =>
      { loc := Loc.awaiting, vars := w₁, events := [Event.log ⟨Level.error, err.Error⟩] }
  | none =>
      match slicePrefix w₁.buf w₁.n with
      | some data => { loc := Loc.awaiting, vars := w₁, events := [Event.call recvfunc data] }
      | none => { loc := Loc.panicked, vars := w₁, events := [] }

/-- A worker after some reads: its control state, its variables, everything it
did, and the read results it has not consumed. -/
structure Run where
  loc : Loc
  vars : Worker
  trace : List Event
  pending : List ReadResult
  deriving DecidableEq, Repr

/-- The `for` loop of lines 73-83, driven by the read results the socket
delivers to this worker. With no read result left the worker is blocked in
`ReadFromUDP`. -/
def loop (recvfunc : RecvFunc) : Worker → List Event → List ReadResult → Run
  | w, trace, [] => { loc := Loc.awaiting, vars := w, trace := trace, pending := [] }
  | w, trace, r :: rs =>
      let s := iteration recvfunc w r
      match s.loc with
      | Loc.awaiting => loop recvfunc s.vars (trace ++ s.events) rs
      | Loc.panicked =>
          { loc := Loc.panicked, vars := s.vars, trace := trace ++ s.events, pending := rs }

/-- The function `processingQueue(connection, recvfunc)`, observed while
`connection` delivers the read results `reads` to it. -/
def processingQueue (_connection : UDPConn) (recvfunc : RecvFunc)
    (reads : List ReadResult) : Run :=
  loop recvfunc Worker.init [] reads

/-! ## Observations on a trace -/

/-- The goroutines started in a trace: the arguments of each
`go processingQueue(conn, recvfunc)`, in order. -/
def spawns : List Event → List (UDPConn × RecvFunc)
  | [] => []
  | Event.spawn conn recvfunc :: t => (conn, recvfunc) :: spawns t
  | _ :: t => spawns t

/-- The callback invocations of a trace: which function was called and with
which bytes, in order. -/
def calls : List Event → List (RecvFunc × List Byte)
  | [] => []
  | Event.call recvfunc data :: t => (recvfunc, data) :: calls t
  | _ :: t => calls t

/-- The log lines of a trace, in order. -/
def logs : List Event → List LogEntry
  | [] => []
  | Event.log entry :: t => entry :: logs t
  | _ :: t => logs t

/-- The bind attempts of a trace, in order. -/
def listens : List Event → List UDPAddr
  | [] => []
  | Event.listen addr :: t => addr :: listens t
  | _ :: t => listens t

/-- The texts of the error lines of a trace, in order. -/
def errorLogs (t : List Event) : List String :=
  ((logs t).filter (fun entry => entry.level = Level.error)).map LogEntry.text

/-! ## The running service -/

/-- The callback invocations made by the spawned workers, worker after worker,
when the socket delivers the read results `traffic k` to the worker number
`k`; `i` is the number of the first worker of the list. -/
def poolCalls (traffic : Nat → List ReadResult) :
    Nat → List (UDPConn × RecvFunc) → List (RecvFunc × List Byte)
  | _, [] => []
  | i, (conn, recvfunc) :: ws =>
      calls (processingQueue conn recvfunc (traffic i)).trace ++ poolCalls traffic (i + 1) ws

/-- Every callback invocation of a service started by `Start`: those made by
`Start` itself and those made by the workers it spawned. -/
def serviceCalls (r : StartResult) (traffic : Nat → List ReadResult) :
    List (RecvFunc × List Byte) :=
  calls r.trace ++ poolCalls traffic 0 (spawns r.trace)

/-! ## Read results of the socket -/

/-- What `ReadFromUDP` returns for a buffer of `maxUDPSize` bytes: when the
error is nil, `n` is the number of bytes stored in the buffer, between 0 and
the length of the buffer. Nothing is required of a failed read. -/
def ReadResult.Valid (r : ReadResult) : Prop :=
  r.err = none → 0 ≤ r.n ∧ r.n ≤ (maxUDPSize : Int) ∧ (r.data.length : Int) = r.n

instance (r : ReadResult) : Decidable r.Valid := by
  unfold ReadResult.Valid
  exact inferInstance

/-- The payloads of the successful reads of a sequence, in order. -/
def successes : List ReadResult → List (List Byte)
  | [] => []
  | r :: rs =>
      match r.err with
      | none => r.data :: successes rs
      | some _ => successes rs

/-! ## Sample environments -/

/-- A host on which UDP port 9514 is free and every other port is taken. A nil
IP in the address asks for all interfaces. `ParseIP` is given on the strings
used below: the literal 127.0.0.1 and strings that are no address. -/
def freePortNet : Net where
  ParseIP := fun s => if s = "127.0.0.1" then some [127, 0, 0, 1] else none
  ListenUDP := fun addr =>
    if addr.Port = 9514 then Except.ok ⟨3⟩
    else Except.error ⟨"listen udp: bind: address already in use"⟩

/-- A sample callback. -/
def recordingCallback : RecvFunc := ⟨1⟩

/-! ## Auxiliary facts -/

theorem spawnLoop_eq (conn : UDPConn) (f : RecvFunc) (q : Int) :
    ∀ (k : Nat) (i : Int) (t : List Event), (q - i).toNat = k →
      spawnLoop conn f q i t = t ++ List.replicate k (Event.spawn conn f) := by
  intro k
  induction k with
  | zero =>
      intro i t hk
      have hi : ¬ i < q := by omega
      rw [spawnLoop, if_neg hi]
      simp
  | succ k ih =>
      intro i t hk
      have hi : i < q := by omega
      rw [spawnLoop, if_pos hi, ih (i + 1) _ (by omega)]
      simp [List.replicate_succ]

theorem Start_bind_error (net : Net) (listenIP : String) (listenPort queueSize : Int)
    (f : RecvFunc) (e : GoError)
    (hb : net.ListenUDP ⟨listenPort, net.ParseIP listenIP⟩ = Except.error e) :
    Start net listenIP listenPort queueSize f =
      { trace := [Event.log ⟨Level.info, startupMessage listenIP listenPort⟩,
                  Event.listen ⟨listenPort, net.ParseIP listenIP⟩,
                  Event.log ⟨Level.error, e.Error⟩],
        exit := Exit.earlyReturn } := by
  simp [Start, hb]

theorem Start_bind_ok (net : Net) (listenIP : String) (listenPort queueSize : Int)
    (f : RecvFunc) (conn : UDPConn)
    (hb : net.ListenUDP ⟨listenPort, net.ParseIP listenIP⟩ = Except.ok conn) :
    Start net listenIP listenPort queueSize f =
      { trace := [Event.log ⟨Level.info, startupMessage listenIP listenPort⟩,
                  Event.listen ⟨listenPort, net.ParseIP listenIP⟩]
                  ++ List.replicate queueSize.toNat (Event.spawn conn f),
        exit := Exit.endOfBody } := by
  simp [Start, hb, spawnLoop_eq conn f queueSize queueSize.toNat 0 _ (by simp)]

theorem spawns_replicate (conn : UDPConn) (f : RecvFunc) (k : Nat) :
    spawns (List.replicate k (Event.spawn conn f)) = List.replicate k (conn, f) := by
  induction k with
  | zero => rfl
  | succ k ih => simp [List.replicate_succ, spawns, ih]

theorem calls_replicate (conn : UDPConn) (f : RecvFunc) (k : Nat) :
    calls (List.replicate k (Event.spawn conn f)) = [] := by
  induction k with
  | zero => rfl
  | succ k ih => simp [List.replicate_succ, calls, ih]

theorem logs_replicate (conn : UDPConn) (f : RecvFunc) (k : Nat) :
    logs (List.replicate k (Event.spawn conn f)) = [] := by
  induction k with
  | zero => rfl
  | succ k ih => simp [List.replicate_succ, logs, ih]

theorem listens_replicate (conn : UDPConn) (f : RecvFunc) (k : Nat) :
    listens (List.replicate k (Event.spawn conn f)) = [] := by
  induction k with
  | zero => rfl
  | succ k ih => simp [List.replicate_succ, listens, ih]

theorem calls_append (s t : List Event) : calls (s ++ t) = calls s ++ calls t := by
  induction s with
  | nil => rfl
  | cons e s ih => cases e <;> simp [calls, ih]

theorem logs_append (s t : List Event) : logs (s ++ t) = logs s ++ logs t := by
  induction s with
  | nil => rfl
  | cons e s ih => cases e <;> simp [logs, ih]

theorem store_length (buf data : List Byte) : (store buf data).length = buf.length := by
  simp [store]
  omega

theorem slicePrefix_inRange (buf : List Byte) (n : Int) (h0 : 0 ≤ n)
    (h1 : n ≤ (buf.length : Int)) : slicePrefix buf n = some (buf.take n.toNat) := by
  simp [slicePrefix, h0, h1]

theorem store_take_exact (buf data : List Byte) (h : data.length ≤ buf.length) :
    (store buf data).take data.length = data := by
  simp [store, List.take_append_eq_append_take, List.take_of_length_le h]

/-- A failed read: the error is logged and the worker waits for the next read. -/
theorem iteration_failed (f : RecvFunc) (w : Worker) (r : ReadResult) (e : GoError)
    (he : r.err = some e) :
    iteration f w r =
      { loc := Loc.awaiting
        vars := { n := r.n, err := r.err, buf := store w.buf r.data }
        events := [Event.log ⟨Level.error, e.Error⟩] } := by
  simp [iteration, he]

/-- A successful read whose count is within the buffer: the callback gets the
first `n` bytes of the buffer and the worker waits for the next read. -/
theorem iteration_succeeded (f : RecvFunc) (w : Worker) (r : ReadResult)
    (he : r.err = none) (h0 : 0 ≤ r.n) (h1 : r.n ≤ (w.buf.length : Int)) :
    iteration f w r =
      { loc := Loc.awaiting
        vars := { n := r.n, err := r.err, buf := store w.buf r.data }
        events := [Event.call f ((store w.buf r.data).take r.n.toNat)] } := by
  have hs : slicePrefix (store w.buf r.data) r.n = some ((store w.buf r.data).take r.n.toNat) :=
    slicePrefix_inRange _ _ h0 (by rw [store_length]; exact h1)
  simp [iteration, he, hs]

/-- On valid read results a worker whose buffer has `maxUDPSize` bytes consumes
every read, calls the callback with the payload of each successful read, and
keeps its buffer length. -/
theorem loop_valid (f : RecvFunc) :
    ∀ (rs : List ReadResult) (w : Worker) (t : List Event),
      w.buf.length = maxUDPSize → (∀ r ∈ rs, r.Valid) →
      (loop f w t rs).loc = Loc.awaiting ∧ (loop f w t rs).pending = [] ∧
      (loop f w t rs).vars.buf.length = maxUDPSize ∧
      calls (loop f w t rs).trace = calls t ++ (successes rs).map (fun d => (f, d)) := by
  intro rs
  induction rs with
  | nil =>
      intro w t hw _
      simp [loop, successes, hw]
  | cons r rs ih =>
      intro w t hw hrs
      have hr : r.Valid := hrs r (List.mem_cons_self _ _)
      have hrest : ∀ x ∈ rs, x.Valid := fun x hx => hrs x (List.mem_cons_of_mem _ hx)
      have hlen : (store w.buf r.data).length = maxUDPSize := by rw [store_length]; exact hw
      cases he : r.err with
      | some e =>
          have hit := iteration_failed f w r e he
          have := ih { n := r.n, err := r.err, buf := store w.buf r.data }
            (t ++ [Event.log ⟨Level.error, e.Error⟩]) hlen hrest
          simp only [loop, hit]
          simpa [successes, he, calls_append, calls] using this
      | none =>
          obtain ⟨h0, h1, h2⟩ := hr he
          have hit := iteration_succeeded f w r he h0 (by rw [hw]; exact h1)
          have hd : r.data.length ≤ w.buf.length := by rw [hw]; omega
          have hn : r.n.toNat = r.data.length := by omega
          have htake : (store w.buf r.data).take r.n.toNat = r.data := by
            rw [hn]; exact store_take_exact _ _ hd
          have := ih { n := r.n, err := r.err, buf := store w.buf r.data }
            (t ++ [Event.call f ((store w.buf r.data).take r.n.toNat)]) hlen hrest
          simp only [loop, hit]
          simpa [successes, he, calls_append, calls, htake] using this

theorem successes_length (rs : List ReadResult) :
    (successes rs).length = rs.countP (fun r => decide (r.err = none)) := by
  induction rs with
  | nil => rfl
  | cons r rs ih =>
      cases he : r.err with
      | none => simp [successes, he, ih]
      | some e => simp [successes, he, ih]

/-! ## The worker loop -/

/-- Claim C1. With a buffer of 65536 bytes and a successful read of length
`n`, `0 ≤ n ≤ 65536`, the slice `buf[:n]` is in range, one iteration makes
exactly one callback invocation and nothing else, the bytes passed have length
`n` and are the first `n` bytes of the buffer as the read left it (the bytes
stored by the read when it stored `n` bytes), nothing is logged, and the worker
is back at the read. -/
theorem iteration_delivers_read (f : RecvFunc) (w : Worker) (r : ReadResult)
    (hbuf : w.buf.length = 65536) (herr : r.err = none)
    (h0 : 0 ≤ r.n) (h1 : r.n ≤ 65536) :
    ∃ data : List Byte,
      slicePrefix (store w.buf r.data) r.n = some data ∧
      (iteration f w r).events = [Event.call f data] ∧
      (iteration f w r).loc = Loc.awaiting ∧
      (data.length : Int) = r.n ∧
      data = (store w.buf r.data).take r.n.toNat ∧
      ((r.data.length : Int) = r.n → data = r.data) ∧
      logs (iteration f w r).events = [] := by
  have hb : r.n ≤ (w.buf.length : Int) := by rw [hbuf]; exact h1
  have hit := iteration_succeeded f w r herr h0 hb
  have hs : slicePrefix (store w.buf r.data) r.n = some ((store w.buf r.data).take r.n.toNat) :=
    slicePrefix_inRange _ _ h0 (by rw [store_length]; exact hb)
  refine ⟨(store w.buf r.data).take r.n.toNat, hs, ?_, ?_, ?_, rfl, ?_, ?_⟩
  · rw [hit]
  · rw [hit]
  · rw [List.length_take, store_length, hbuf]
    omega
  · intro hd
    have hn : r.n.toNat = r.data.length := by omega
    rw [hn]
    exact store_take_exact _ _ (by omega)
  · rw [hit]
    rfl

theorem iteration_delivers_read_witness :
    (iteration recordingCallback Worker.init ⟨3, none, [104, 49, 10]⟩).events =
      [Event.call recordingCallback [104, 49, 10]] := by
  obtain ⟨data, _, hev, _, _, _, hd, _⟩ :=
    iteration_delivers_read recordingCallback Worker.init ⟨3, none, [104, 49, 10]⟩
      (List.length_replicate maxUDPSize 0) rfl (by decide) (by decide)
  rw [hev, hd (by rfl)]

/-- Claim C2. For every finite sequence of read results delivered to one
worker, the callback invocations of `processingQueue` are exactly the payloads
of the successful reads, in the same order: one invocation per successful read,
none for a failed read. -/
theorem processingQueue_calls (conn : UDPConn) (f : RecvFunc) (rs : List ReadResult)
    (hrs : ∀ r ∈ rs, r.Valid) :
    calls (processingQueue conn f rs).trace = (successes rs).map (fun d => (f, d)) ∧
    (calls (processingQueue conn f rs).trace).length
      = rs.countP (fun r => decide (r.err = none)) := by
  have h := (loop_valid f rs Worker.init []
    (by simp [Worker.init]) hrs).2.2.2
  have h2 : calls (processingQueue conn f rs).trace = (successes rs).map (fun d => (f, d)) := by
    simpa [processingQueue, calls] using h
  exact ⟨h2, by rw [h2, List.length_map, successes_length]⟩

theorem processingQueue_calls_witness :
    calls (processingQueue ⟨3⟩ recordingCallback
      [⟨2, none, [104, 105]⟩, ⟨0, some ⟨"use of closed network connection"⟩, []⟩,
       ⟨0, none, []⟩]).trace
      = [(recordingCallback, [104, 105]), (recordingCallback, [])] :=
  (processingQueue_calls ⟨3⟩ recordingCallback
    [⟨2, none, [104, 105]⟩, ⟨0, some ⟨"use of closed network connection"⟩, []⟩,
     ⟨0, none, []⟩] (by decide)).1

/-- Claim C3. When the read returns an error, one iteration logs exactly one
error line, whose text is the message of that error, does not invoke the
callback, and the worker goes on with the next read. -/
theorem iteration_read_error (f : RecvFunc) (w : Worker) (r : ReadResult) (e : GoError)
    (he : r.err = some e) :
    (iteration f w r).events = [Event.log ⟨Level.error, e.Error⟩] ∧
    errorLogs (iteration f w r).events = [e.Error] ∧
    calls (iteration f w r).events = [] ∧
    (iteration f w r).loc = Loc.awaiting ∧
    ∀ (t : List Event) (rs : List ReadResult),
      loop f w t (r :: rs) =
        loop f (iteration f w r).vars (t ++ [Event.log ⟨Level.error, e.Error⟩]) rs := by
  have hit := iteration_failed f w r e he
  refine ⟨by rw [hit], by rw [hit]; rfl, by rw [hit]; rfl, by rw [hit], ?_⟩
  intro t rs
  simp [loop, hit]

theorem iteration_read_error_witness :
    (iteration recordingCallback Worker.init
      ⟨0, some ⟨"use of closed network connection"⟩, []⟩).events =
      [Event.log ⟨Level.error, "use of closed network connection"⟩] :=
  (iteration_read_error recordingCallback Worker.init
    ⟨0, some ⟨"use of closed network connection"⟩, []⟩
    ⟨"use of closed network connection"⟩ rfl).1

/-- Claim C7. The read loop has no terminal state: from the read, every valid
read result (a success of any length up to the buffer size, or any error) leads
back to the read, and after every finite sequence of valid read results the
worker is waiting at the read again with every element consumed. -/
theorem processingQueue_never_stops (conn : UDPConn) (f : RecvFunc) (w : Worker)
    (t : List Event) (rs : List ReadResult)
    (hbuf : w.buf.length = maxUDPSize) (hrs : ∀ r ∈ rs, r.Valid) :
    (∀ r ∈ rs, ∀ v : Worker, v.buf.length = maxUDPSize →
      (iteration f v r).loc = Loc.awaiting ∧
      (iteration f v r).vars.buf.length = maxUDPSize) ∧
    (loop f w t rs).loc = Loc.awaiting ∧ (loop f w t rs).pending = [] ∧
    (processingQueue conn f rs).loc = Loc.awaiting ∧
    (processingQueue conn f rs).pending = [] := by
  refine ⟨?_, (loop_valid f rs w t hbuf hrs).1, (loop_valid f rs w t hbuf hrs).2.1, ?_, ?_⟩
  · intro r hr v hv
    have h := loop_valid f [r] v [] hv (by simpa using hrs r hr)
    cases hl : (iteration f v r).loc with
    | awaiting =>
        refine ⟨rfl, ?_⟩
        have h3 := h.2.2.1
        simpa [loop, hl] using h3
    | panicked =>
        have h1 := h.1
        simp [loop, hl] at h1
  · exact (loop_valid f rs Worker.init [] (by simp [Worker.init]) hrs).1
  · exact (loop_valid f rs Worker.init [] (by simp [Worker.init]) hrs).2.1

theorem processingQueue_never_stops_witness :
    (processingQueue ⟨3⟩ recordingCallback
      [⟨0, some ⟨"use of closed network connection"⟩, []⟩, ⟨1, none, [7]⟩,
       ⟨0, some ⟨"use of closed network connection"⟩, []⟩]).pending = [] :=
  (processingQueue_never_stops ⟨3⟩ recordingCallback Worker.init []
    [⟨0, some ⟨"use of closed network connection"⟩, []⟩, ⟨1, none, [7]⟩,
     ⟨0, some ⟨"use of closed network connection"⟩, []⟩]
    (by simp [Worker.init]) (by decide)).2.2.2.2

/-! ## Startup -/

/-- Claim C4. When the bind fails, `Start` spawns no worker, so the callback is
never invoked whatever traffic arrives, logs the message of the failure cause as
an error line, and returns at once; it has no result through which the error
could reach the caller. -/
theorem Start_bind_failure (net : Net) (listenIP : String) (listenPort queueSize : Int)
    (f : RecvFunc) (e : GoError)
    (hb : net.ListenUDP ⟨listenPort, net.ParseIP listenIP⟩ = Except.error e) :
    spawns (Start net listenIP listenPort queueSize f).trace = [] ∧
    calls (Start net listenIP listenPort queueSize f).trace = [] ∧
    (∀ traffic, serviceCalls (Start net listenIP listenPort queueSize f) traffic = []) ∧
    errorLogs (Start net listenIP listenPort queueSize f).trace = [e.Error] ∧
    (Start net listenIP listenPort queueSize f).exit = Exit.earlyReturn := by
  rw [Start_bind_error net listenIP listenPort queueSize f e hb]
  simp [spawns, calls, serviceCalls, poolCalls, errorLogs, logs]

theorem Start_bind_failure_witness :
    errorLogs (Start freePortNet "127.0.0.1" 80 4 recordingCallback).trace
      = ["listen udp: bind: address already in use"] :=
  (Start_bind_failure freePortNet "127.0.0.1" 80 4 recordingCallback
    ⟨"listen udp: bind: address already in use"⟩ rfl).2.2.2.1

/-- Claim C5. When the bind succeeds and the worker count `n` is not negative,
`Start` spawns exactly `n` workers, each with the socket returned by the bind
and with the callback given to `Start`; `Start` itself never invokes the
callback. For `n = 0` the bind is made, no worker is spawned, no error is
logged and the callback is not invoked whatever traffic arrives. -/
theorem Start_spawns_workers (net : Net) (listenIP : String) (listenPort queueSize : Int)
    (f : RecvFunc) (conn : UDPConn)
    (hb : net.ListenUDP ⟨listenPort, net.ParseIP listenIP⟩ = Except.ok conn)
    (hn : 0 ≤ queueSize) :
    spawns (Start net listenIP listenPort queueSize f).trace
      = List.replicate queueSize.toNat (conn, f) ∧
    ((spawns (Start net listenIP listenPort queueSize f).trace).length : Int) = queueSize ∧
    calls (Start net listenIP listenPort queueSize f).trace = [] ∧
    listens (Start net listenIP listenPort 0 f).trace = [⟨listenPort, net.ParseIP listenIP⟩] ∧
    spawns (Start net listenIP listenPort 0 f).trace = [] ∧
    errorLogs (Start net listenIP listenPort 0 f).trace = [] ∧
    (∀ traffic, serviceCalls (Start net listenIP listenPort 0 f) traffic = []) := by
  rw [Start_bind_ok net listenIP listenPort queueSize f conn hb,
    Start_bind_ok net listenIP listenPort 0 f conn hb]
  simp [spawns, calls, listens, serviceCalls, poolCalls, errorLogs, logs, spawns_replicate,
    calls_replicate, hn]

theorem Start_spawns_workers_witness :
    spawns (Start freePortNet "127.0.0.1" 9514 4 recordingCallback).trace
      = List.replicate 4 (⟨3⟩, recordingCallback) :=
  (Start_spawns_workers freePortNet "127.0.0.1" 9514 4 recordingCallback ⟨3⟩
    rfl (by decide)).1

/-- Claim C6, as stated, fails: with a listenIP that is no IP address the parse
result is nil, the bind to port 9514 on all interfaces succeeds, no error is
logged, two workers are spawned and a datagram read by them reaches the
callback. -/
theorem unparsable_listenIP_is_served :
    freePortNet.ParseIP "not-an-ip" = none ∧
    spawns (Start freePortNet "not-an-ip" 9514 2 recordingCallback).trace
      = [(⟨3⟩, recordingCallback), (⟨3⟩, recordingCallback)] ∧
    errorLogs (Start freePortNet "not-an-ip" 9514 2 recordingCallback).trace = [] ∧
    serviceCalls (Start freePortNet "not-an-ip" 9514 2 recordingCallback)
        (fun _ => [⟨1, none, [7]⟩])
      = [(recordingCallback, [7]), (recordingCallback, [7])] := by
  have hq := (loop_valid recordingCallback [⟨1, none, [7]⟩] Worker.init []
    (by simp [Worker.init]) (by decide)).2.2.2
  have hcalls : calls (processingQueue ⟨3⟩ recordingCallback [⟨1, none, [7]⟩]).trace
      = [(recordingCallback, [7])] := by
    show calls (loop recordingCallback Worker.init [] [⟨1, none, [7]⟩]).trace = _
    exact hq.trans (by decide)
  have hst := Start_bind_ok freePortNet "not-an-ip" 9514 2 recordingCallback ⟨3⟩ rfl
  have hsp : spawns (Start freePortNet "not-an-ip" 9514 2 recordingCallback).trace
      = [(⟨3⟩, recordingCallback), (⟨3⟩, recordingCallback)] := by
    rw [hst]; decide
  have hc : calls (Start freePortNet "not-an-ip" 9514 2 recordingCallback).trace = [] := by
    rw [hst]; decide
  refine ⟨by decide, hsp, by rw [hst]; decide, ?_⟩
  rw [serviceCalls, hsp, hc, poolCalls, poolCalls, poolCalls, hcalls]
  rfl

/-- Claim C6, amended. When listenIP is no IP address, `Start` does not check
the nil parse result: it asks for a bind with a nil IP and the outcome is that
of the bind alone. If the bind fails, the failure is logged as an error, no
worker is spawned and the callback is never invoked; if the bind succeeds, no
error is logged and the workers are spawned. -/
theorem Start_unparsable_listenIP (net : Net) (listenIP : String)
    (listenPort queueSize : Int) (f : RecvFunc)
    (hp : net.ParseIP listenIP = none) :
    listens (Start net listenIP listenPort queueSize f).trace = [⟨listenPort, none⟩] ∧
    (∀ e, net.ListenUDP ⟨listenPort, none⟩ = Except.error e →
      errorLogs (Start net listenIP listenPort queueSize f).trace = [e.Error] ∧
      spawns (Start net listenIP listenPort queueSize f).trace = [] ∧
      ∀ traffic, serviceCalls (Start net listenIP listenPort queueSize f) traffic = []) ∧
    (∀ conn, net.ListenUDP ⟨listenPort, none⟩ = Except.ok conn →
      errorLogs (Start net listenIP listenPort queueSize f).trace = [] ∧
      spawns (Start net listenIP listenPort queueSize f).trace
        = List.replicate queueSize.toNat (conn, f)) := by
  refine ⟨?_, ?_, ?_⟩
  · cases hb : net.ListenUDP ⟨listenPort, net.ParseIP listenIP⟩ with
    | error e =>
        rw [Start_bind_error net listenIP listenPort queueSize f e hb]
        simp [listens, hp]
    | ok conn =>
        rw [Start_bind_ok net listenIP listenPort queueSize f conn hb]
        simp [listens, listens_replicate, hp]
  · intro e hb
    rw [Start_bind_error net listenIP listenPort queueSize f e (by rw [hp]; exact hb)]
    simp [spawns, calls, serviceCalls, poolCalls, errorLogs, logs]
  · intro conn hb
    rw [Start_bind_ok net listenIP listenPort queueSize f conn (by rw [hp]; exact hb)]
    simp [spawns, errorLogs, logs, spawns_replicate, logs_replicate]

theorem Start_unparsable_listenIP_witness :
    listens (Start freePortNet "not-an-ip" 80 4 recordingCallback).trace = [⟨80, none⟩] :=
  (Start_unparsable_listenIP freePortNet "not-an-ip" 80 4 recordingCallback (by decide)).1

/-- Claim C8 fails on the code: with a free port and four workers, `Start` logs
the startup line, binds, starts four goroutines and reaches the end of its
body, so the call returns. -/
theorem Start_returns_after_spawning :
    Start freePortNet "127.0.0.1" 9514 4 recordingCallback =
      { trace := [Event.log ⟨Level.info,
                    "Starting the receiver service listening for UDP on 127.0.0.1:9514"⟩,
                  Event.listen ⟨9514, some [127, 0, 0, 1]⟩,
                  Event.spawn ⟨3⟩ recordingCallback, Event.spawn ⟨3⟩ recordingCallback,
                  Event.spawn ⟨3⟩ recordingCallback, Event.spawn ⟨3⟩ recordingCallback],
        exit := Exit.endOfBody } := by
  rw [Start_bind_ok freePortNet "127.0.0.1" 9514 4 recordingCallback ⟨3⟩ rfl]
  decide

/-- Claim C9. The first thing `Start` does is log the info line made of the
fixed text, listenIP, a colon and the decimal rendering of listenPort; the bind
attempt is the next event and the only one, whether it succeeds or fails; when
it fails, the error line with the message of the cause follows it. -/
theorem Start_logs_before_bind (net : Net) (listenIP : String) (listenPort queueSize : Int)
    (f : RecvFunc) :
    ∃ rest : List Event,
      (Start net listenIP listenPort queueSize f).trace =
        Event.log ⟨Level.info, "Starting the receiver service listening for UDP on "
          ++ listenIP ++ ":" ++ Itoa listenPort⟩
        :: Event.listen ⟨listenPort, net.ParseIP listenIP⟩ :: rest ∧
      (logs (Start net listenIP listenPort queueSize f).trace).head? =
        some ⟨Level.info, "Starting the receiver service listening for UDP on "
          ++ listenIP ++ ":" ++ Itoa listenPort⟩ ∧
      listens rest = [] ∧
      (∀ conn, net.ListenUDP ⟨listenPort, net.ParseIP listenIP⟩ = Except.ok conn →
        logs rest = []) ∧
      (∀ e, net.ListenUDP ⟨listenPort, net.ParseIP listenIP⟩ = Except.error e →
        rest = [Event.log ⟨Level.error, e.Error⟩]) := by
  cases hb : net.ListenUDP ⟨listenPort, net.ParseIP listenIP⟩ with
  | error e =>
      rw [Start_bind_error net listenIP listenPort queueSize f e hb]
      refine ⟨[Event.log ⟨Level.error, e.Error⟩], rfl, rfl, rfl, ?_, ?_⟩
      · intro conn hc
        cases hc
      · intro e2 he2
        cases he2
        rfl
  | ok conn =>
      rw [Start_bind_ok net listenIP listenPort queueSize f conn hb]
      refine ⟨List.replicate queueSize.toNat (Event.spawn conn f), rfl, rfl,
        listens_replicate _ _ _, ?_, ?_⟩
      · intro c _
        exact logs_replicate _ _ _
      · intro e he
        cases he

/-- Claim C10. With a successful bind, a negative worker count makes `Start`
behave exactly as for worker count 0: the spawn loop leaves at its first test,
no worker is spawned, no error is logged, and `Start` returns at the end of its
body; the number of workers spawned for any integer `m` is `max m 0`. -/
theorem Start_negative_queueSize (net : Net) (listenIP : String)
    (listenPort queueSize : Int) (f : RecvFunc) (conn : UDPConn)
    (hb : net.ListenUDP ⟨listenPort, net.ParseIP listenIP⟩ = Except.ok conn)
    (hn : queueSize < 0) :
    Start net listenIP listenPort queueSize f = Start net listenIP listenPort 0 f ∧
    (∀ t, spawnLoop conn f queueSize 0 t = t) ∧
    spawns (Start net listenIP listenPort queueSize f).trace = [] ∧
    errorLogs (Start net listenIP listenPort queueSize f).trace = [] ∧
    (Start net listenIP listenPort queueSize f).exit = Exit.endOfBody ∧
    ∀ m : Int, ((spawns (Start net listenIP listenPort m f).trace).length : Int) = max m 0 := by
  have hz : queueSize.toNat = 0 := by omega
  refine ⟨?_, ?_, ?_, ?_, ?_, ?_⟩
  · rw [Start_bind_ok net listenIP listenPort queueSize f conn hb,
      Start_bind_ok net listenIP listenPort 0 f conn hb, hz]
    rfl
  · intro t
    rw [spawnLoop, if_neg (by omega)]
  · rw [Start_bind_ok net listenIP listenPort queueSize f conn hb, hz]
    rfl
  · rw [Start_bind_ok net listenIP listenPort queueSize f conn hb, hz]
    rfl
  · rw [Start_bind_ok net listenIP listenPort queueSize f conn hb]
  · intro m
    rw [Start_bind_ok net listenIP listenPort m f conn hb]
    simp [spawns, spawns_replicate]

theorem Start_negative_queueSize_witness :
    Start freePortNet "127.0.0.1" 9514 (-3) recordingCallback
      = Start freePortNet "127.0.0.1" 9514 0 recordingCallback :=
  (Start_negative_queueSize freePortNet "127.0.0.1" 9514 (-3) recordingCallback ⟨3⟩
    rfl (by decide)).1

end Receiver
